import Mathlib

/-!
Verification of `fetch_stock_data.py` (stock-price-prediction).

The program fetches historical OHLCV rows for one ticker through an external
quote-client library, prints descriptive statistics over the closing-price
column together with a derived narrative, and writes the table to a dated CSV
file.  The external calls (the quote client's `history`/`info` and the clock)
are modelled as explicit inputs; floating-point arithmetic on prices is
modelled over `ℚ`, with division by zero made explicit through an IEEE-style
value type (`PyVal`) carrying infinities and NaN, matching numpy float64
semantics for `x / 0.0`; the standard deviation, an irrational square root, is
the real square root of the sample variance.
-/

/-- IEEE-style float result: a finite number, ±infinity, or NaN.  numpy
float64 division by zero yields `+inf`/`-inf`/`nan` (with a warning) rather
than raising. -/
inductive PyVal (α : Type) where
  | num (x : α)
  | posInf
  | negInf
  | nan
deriving DecidableEq, Repr

/-- numpy float64 division: finite quotient when the denominator is nonzero;
`±inf` (sign of the numerator) or `nan` (`0/0`) when it is zero. -/
def fdiv (a b : ℚ) : PyVal ℚ :=
  if b = 0 then
    (if 0 < a then PyVal.posInf else if a < 0 then PyVal.negInf else PyVal.nan)
  else PyVal.num (a / b)

/-- Multiplication of a float value by a positive finite constant
(used for the `* 100` scalings in the narrative). -/
def PyVal.mulPos : PyVal ℚ → ℚ → PyVal ℚ
  | PyVal.num x, c => PyVal.num (x * c)
  | PyVal.posInf, _ => PyVal.posInf
  | PyVal.negInf, _ => PyVal.negInf
  | PyVal.nan, _ => PyVal.nan

/-- One OHLCV row of the historical table (`stock.history` result):
the date index plus Open/High/Low/Close/Volume.  `open` is a reserved word in
Lean, hence the field name `openP`. -/
structure Row where
  date : String
  openP : ℚ
  high : ℚ
  low : ℚ
  close : ℚ
  volume : Nat
deriving DecidableEq, Repr

/-- Minimum of a series, as pandas `describe` reports it for a nonempty
column (`0` only for the never-queried empty series). -/
def seriesMin : List ℚ → ℚ
  | [] => 0
  | x :: xs => xs.foldl min x

/-- Maximum of a series, as pandas `describe` reports it. -/
def seriesMax : List ℚ → ℚ
  | [] => 0
  | x :: xs => xs.foldl max x

/-- Mean of a series (`sum / count`). -/
def seriesMean (l : List ℚ) : ℚ := l.sum / l.length

/-- Sample variance with `ddof = 1` (pandas default): `Σ (x - mean)² / (n - 1)`.
For `n = 1` pandas reports NaN; here the `ℚ` convention `x / 0 = 0` applies
(no claim touches the one-row standard deviation). -/
def seriesVar (l : List ℚ) : ℚ :=
  (l.map (fun x => (x - seriesMean l) ^ 2)).sum / ((l.length : ℚ) - 1)

/-- Linear-interpolation quantile (numpy/pandas default `linear` method):
position `q * (n - 1)` into the sorted data, interpolating between the two
neighbouring order statistics. -/
def quantile (l : List ℚ) (q : ℚ) : ℚ :=
  let s := l.insertionSort (· ≤ ·)
  if l.length = 0 then 0 else
    let pos : ℚ := q * ((l.length : ℚ) - 1)
    let i : ℕ := ⌊pos⌋.toNat
    let lo := s.getD i 0
    let hi := s.getD (i + 1) lo
    lo + (pos - (i : ℚ)) * (hi - lo)

/-- The describe-block of `data['Close'].describe()` consumed by `main`:
count, mean, min, the three quartiles, max, plus the sample variance from
which the printed standard deviation is `Real.sqrt seriesVar`. -/
structure CloseStats where
  count : ℚ
  mean : ℚ
  var : ℚ
  min : ℚ
  p25 : ℚ
  p50 : ℚ
  p75 : ℚ
  max : ℚ
deriving DecidableEq, Repr

/-- `data['Close'].describe()` over the closing-price column. -/
def describe (closes : List ℚ) : CloseStats where
  count := closes.length
  mean := seriesMean closes
  var := seriesVar closes
  min := seriesMin closes
  p25 := quantile closes (1/4)
  p50 := quantile closes (1/2)
  p75 := quantile closes (3/4)
  max := seriesMax closes

/-- The printed standard deviation: square root of the sample variance. -/
noncomputable def stdev (s : CloseStats) : ℝ := Real.sqrt s.var

/-- The narrative block computed by `main` after the describe printout:
`price_range`, `percent_increase`, `iqr_range`, `volatility_percent`.
The two quotients are float divisions (`fdiv`), so a zero denominator gives an
IEEE infinity/NaN rather than an exception. -/
structure Story where
  price_range : ℚ
  percent_increase : PyVal ℚ
  iqr_range : ℚ
  volatility_percent : PyVal ℝ

/-- Real-valued float division for `std / mean` (the standard deviation is a
real square root). -/
noncomputable def fdivR (a b : ℝ) : PyVal ℝ :=
  if b = 0 then
    (if 0 < a then PyVal.posInf else if a < 0 then PyVal.negInf else PyVal.nan)
  else PyVal.num (a / b)

/-- Scaling of a real float value by a positive finite constant. -/
noncomputable def PyVal.mulPosR : PyVal ℝ → ℝ → PyVal ℝ
  | PyVal.num x, c => PyVal.num (x * c)
  | PyVal.posInf, _ => PyVal.posInf
  | PyVal.negInf, _ => PyVal.negInf
  | PyVal.nan, _ => PyVal.nan

/-- The derived-narrative computation in `main`:
`price_range = stats['max'] - stats['min']`,
`percent_increase = (price_range / stats['min']) * 100`,
`iqr_range = stats['75%'] - stats['25%']`,
`volatility_percent = (stats['std'] / stats['mean']) * 100`.
No denominator is guarded. -/
noncomputable def storyOf (s : CloseStats) : Story where
  price_range := s.max - s.min
  percent_increase := (fdiv (s.max - s.min) s.min).mulPos 100
  iqr_range := s.p75 - s.p25
  volatility_percent := (fdivR (stdev s) (s.mean : ℝ)).mulPosR 100

/-- The spec's definition of the derived narrative metrics, written from its
words: `price_range = max - min`; `percent_increase = price_range / min * 100`
(undefined if `min == 0`); `iqr_range = p75 - p25`;
`volatility_percent = std / mean * 100` (undefined if `mean == 0`). -/
noncomputable def specStory (s : CloseStats) : Story where
  price_range := s.max - s.min
  percent_increase := (fdiv ((s.max - s.min)) s.min).mulPos 100
  iqr_range := s.p75 - s.p25
  volatility_percent := (fdivR (stdev s) (s.mean : ℝ)).mulPosR 100

/-- The sparse company profile returned by `stock.info`: every field the
program reads may be absent (`info.get` with a default). -/
structure Info where
  longName : Option String
  sector : Option String
  industry : Option String
  marketCap : Option Nat
  currency : Option String
deriving DecidableEq, Repr

/-- `f"{n:,}"`: decimal digits grouped in threes with comma separators. -/
def thousandsSep (n : Nat) : String :=
  let ds := (toString n).toList
  let grouped := (ds.reverse.toChunks 3).intersperse [',']
  String.mk (grouped.flatten.reverse)

/-- One line of program output, tagged by which print statement produced it
and carrying the data that is interpolated into the text. -/
inductive Event where
  | headerLine
  | infoHeader (t : String)
  | companyLine (s : String)
  | sectorLine (s : String)
  | industryLine (s : String)
  | marketCapLine (s : String)
  | currencyLine (s : String)
  | infoWarning (e : String)
  | fetchingLine (t : String)
  | fetchErrorLine (e : String)
  | noDataFound (t : String)
  | fetchedRows (n : Nat)
  | dateRange (first last : String)
  | previewRows (rows : List Row)
  | statsBlock (s : CloseStats)
  | storyBlock (ticker : String) (n : Story)
  | noDataNotice
  | savedTo (p : String)
  | fileSizeKB (q : ℚ)
  | successMarker
  | failureMarker

/-- The filesystem as save_data touches it: the set of directories that
exist, and a map from path to file contents kept as an association list in
which a write removes every older entry for the path and appends the new
one (last write wins). -/
structure FS where
  dirs : List String
  files : List (String × String)
deriving DecidableEq, Repr

/-- `os.makedirs(folder, exist_ok=True)`: create the folder when missing, do
nothing (and raise nothing) when it already exists.  Recursive creation of
parents is collapsed into the single folder entry, since the program only
ever names one level. -/
def makedirs (fs : FS) (folder : String) : FS :=
  if folder ∈ fs.dirs then fs else ⟨fs.dirs ++ [folder], fs.files⟩

/-- `data.to_csv(filename)`: (over)write the file at `p` with contents `c`. -/
def writeFile (fs : FS) (p c : String) : FS :=
  ⟨fs.dirs, fs.files.filter (fun e => e.1 ≠ p) ++ [(p, c)]⟩

/-- Contents of the file at `p`, when it exists. -/
def getFile (fs : FS) (p : String) : Option String :=
  (fs.files.reverse.find? (fun e => e.1 == p)).map (fun e => e.2)

/-- `os.path.getsize`: byte size of the file at `p` (0 for a missing file,
never queried).  String length stands in for the UTF-8 byte count. -/
def getsize (fs : FS) (p : String) : Nat :=
  ((getFile fs p).getD "").length

/-- Byte size expressed in KiB, the value printed by
`os.path.getsize(filename) / 1024` (the `:.2f` rendering is string
presentation on top of this exact value). -/
def kibOf (bytes : Nat) : ℚ := (bytes : ℚ) / 1024

/-- One CSV line of `data.to_csv`: index date then OHLCV fields. -/
def rowToCsv (r : Row) : String :=
  r.date ++ "," ++ toString r.openP ++ "," ++ toString r.high ++ "," ++
    toString r.low ++ "," ++ toString r.close ++ "," ++ toString r.volume

/-- `data.to_csv(filename)` serialization: header line then one line per
row. -/
def toCsv (rows : List Row) : String :=
  "Date,Open,High,Low,Close,Volume\n" ++
    String.intercalate "\n" (rows.map rowToCsv)

/-- `fetch_stock_data(ticker, period, interval)`.  The quote client call
`stock.history(...)` is the input `res`: either the rows it parsed or the
error it raised.  The `try/except` around the call catches every error and
returns `None`; a zero-row table also returns `None` after a notice.  The
function is total: no exception escapes. -/
def fetch_stock_data (ticker : String) (res : Except String (List Row)) :
    Option (List Row) × List Event :=
  match res with
  | Except.error e => (none, [Event.fetchingLine ticker, Event.fetchErrorLine e])
  | Except.ok data =>
    if data.isEmpty then
      (none, [Event.fetchingLine ticker, Event.noDataFound ticker])
    else
      (some data,
        [Event.fetchingLine ticker, Event.fetchedRows data.length,
         Event.dateRange (data.headD ⟨"", 0, 0, 0, 0, 0⟩).date
           (data.getLastD ⟨"", 0, 0, 0, 0, 0⟩).date])

/-- `save_data(data, ticker, folder="data")`.  `today` is
`datetime.now().strftime("%Y%m%d")`, the run's current local calendar date.
Empty input (`data is None or data.empty`) returns after a notice with no
filesystem effect; otherwise the folder is ensured, the CSV is written to
`{folder}/{ticker}_{today}.csv`, and the written file's size is reported. -/
def save_data (data : Option (List Row)) (ticker folder today : String)
    (fs : FS) : FS × List Event :=
  match data with
  | none => (fs, [Event.noDataNotice])
  | some rows =>
    if rows.isEmpty then (fs, [Event.noDataNotice])
    else
      let fs1 := makedirs fs folder
      let filename := folder ++ "/" ++ ticker ++ "_" ++ today ++ ".csv"
      let fs2 := writeFile fs1 filename (toCsv rows)
      (fs2, [Event.savedTo filename, Event.fileSizeKB (kibOf (getsize fs2 filename))])

/-- `get_stock_info(ticker)`.  The quote client's `stock.info` mapping is the
input `res`; the `try/except` catches any failure and prints a warning.  Each
present field is printed; absent fields fall back to `info.get`'s defaults:
`'N/A'` for the strings and `0` for the market cap, which is rendered with a
`$` prefix and thousands separators. -/
def get_stock_info (ticker : String) (res : Except String Info) : List Event :=
  match res with
  | Except.error e => [Event.infoWarning e]
  | Except.ok info =>
    [Event.infoHeader ticker,
     Event.companyLine (info.longName.getD "N/A"),
     Event.sectorLine (info.sector.getD "N/A"),
     Event.industryLine (info.industry.getD "N/A"),
     Event.marketCapLine ("$" ++ thousandsSep (info.marketCap.getD 0)),
     Event.currencyLine (info.currency.getD "N/A")]

/-- `main()`.  The ticker is the constant `"JPM"`; the two quote-client calls
are the inputs `profRes` and `histRes`, the clock is `today`.  After the
best-effort profile report, fetch; on `None` print the failure marker and
stop; otherwise preview, describe, tell the story, save, and print the
success marker. -/
noncomputable def mainRun (profRes : Except String Info)
    (histRes : Except String (List Row)) (today : String) (fs : FS) :
    FS × List Event :=
  let infoEvents := get_stock_info "JPM" profRes
  let fr := fetch_stock_data "JPM" histRes
  match fr.1 with
  | none =>
    (fs, Event.headerLine :: infoEvents ++ fr.2 ++ [Event.failureMarker])
  | some rows =>
    let stats := describe (rows.map (fun r => r.close))
    let story := storyOf stats
    let sv := save_data (some rows) "JPM" "data" today fs
    (sv.1,
      Event.headerLine :: infoEvents ++ fr.2 ++
        [Event.previewRows (rows.take 5), Event.statsBlock stats,
         Event.storyBlock "JPM" story] ++ sv.2 ++ [Event.successMarker])

/-- Classifier for output lines only the Summarizer step produces: the
statistics block and the narrative story. -/
def Event.fromSummarizer : Event → Bool
  | Event.statsBlock _ => true
  | Event.storyBlock _ _ => true
  | _ => false

/-- Classifier for output lines only the Persister step produces. -/
def Event.fromPersister : Event → Bool
  | Event.noDataNotice => true
  | Event.savedTo _ => true
  | Event.fileSizeKB _ => true
  | _ => false

/-! ### Helper lemmas -/

theorem foldl_max_mono (xs : List ℚ) {a b : ℚ} (h : a ≤ b) :
    xs.foldl max a ≤ xs.foldl max b := by
  induction xs generalizing a b with
  | nil => exact h
  | cons x ys ih => exact ih (max_le_max h (le_refl x))

theorem foldl_min_le_foldl_max (xs : List ℚ) (a : ℚ) :
    xs.foldl min a ≤ xs.foldl max a := by
  induction xs generalizing a with
  | nil => exact le_refl a
  | cons x ys ih =>
    exact le_trans (ih (min a x)) (foldl_max_mono ys min_le_max)

theorem seriesMin_le_seriesMax {l : List ℚ} (h : l ≠ []) :
    seriesMin l ≤ seriesMax l := by
  cases l with
  | nil => exact absurd rfl h
  | cons x xs => exact foldl_min_le_foldl_max xs x

theorem mem_makedirs (fs : FS) (folder : String) :
    folder ∈ (makedirs fs folder).dirs := by
  by_cases h : folder ∈ fs.dirs <;> simp [makedirs, h]

theorem makedirs_of_mem {fs : FS} {folder : String} (h : folder ∈ fs.dirs) :
    makedirs fs folder = fs := by
  simp [makedirs, h]

theorem files_makedirs (fs : FS) (folder : String) :
    (makedirs fs folder).files = fs.files := by
  by_cases h : folder ∈ fs.dirs <;> simp [makedirs, h]

theorem getFile_writeFile (fs : FS) (p c : String) :
    getFile (writeFile fs p c) p = some c := by
  simp [getFile, writeFile]

theorem getsize_writeFile (fs : FS) (p c : String) :
    getsize (writeFile fs p c) p = c.length := by
  simp [getsize, getFile_writeFile]

theorem filter_ne_then_eq (l : List (String × String)) (p : String) :
    (l.filter (fun e => e.1 ≠ p)).filter (fun e => e.1 == p) = [] := by
  simp [List.filter_filter]

theorem writeFile_writeFile (fs : FS) (p c c' : String) :
    writeFile (writeFile fs p c) p c' = writeFile fs p c' := by
  have hdrop : ((fs.files.filter (fun e => e.1 ≠ p)
      ++ [(p, c)]).filter (fun e => e.1 ≠ p)) = fs.files.filter (fun e => e.1 ≠ p) := by
    simp [List.filter_append, List.filter_filter]
  simp [writeFile, hdrop]

theorem fetch_some_ne_nil {ticker : String} {res : Except String (List Row)}
    {rows : List Row} (h : (fetch_stock_data ticker res).1 = some rows) :
    rows ≠ [] := by
  cases res with
  | error e => exact absurd h (by simp [fetch_stock_data])
  | ok data =>
    by_cases hd : data.isEmpty
    · exact absurd h (by simp [fetch_stock_data, hd])
    · have : data = rows := by
        have := h
        simp [fetch_stock_data, hd] at this
        exact this
      subst this
      simpa [List.isEmpty_iff] using hd

theorem get_stock_info_not_pipeline (t : String) (r : Except String Info) :
    ∀ e ∈ get_stock_info t r,
      e.fromSummarizer = false ∧ e.fromPersister = false := by
  intro e he
  cases r with
  | error err =>
    simp [get_stock_info] at he
    subst he
    exact ⟨rfl, rfl⟩
  | ok i =>
    simp [get_stock_info] at he
    rcases he with rfl | rfl | rfl | rfl | rfl | rfl <;> exact ⟨rfl, rfl⟩

theorem fetch_events_not_pipeline (t : String) (r : Except String (List Row)) :
    ∀ e ∈ (fetch_stock_data t r).2,
      e.fromSummarizer = false ∧ e.fromPersister = false := by
  intro e he
  cases r with
  | error err =>
    simp [fetch_stock_data] at he
    rcases he with rfl | rfl <;> exact ⟨rfl, rfl⟩
  | ok data =>
    by_cases hd : data.isEmpty
    · simp [fetch_stock_data, hd] at he
      rcases he with rfl | rfl <;> exact ⟨rfl, rfl⟩
    · simp [fetch_stock_data, hd] at he
      rcases he with rfl | rfl | rfl <;> exact ⟨rfl, rfl⟩

/-! ### Claim theorems -/

/-- C4: for every non-empty historical table, the narrative metrics derived in
`main` — `price_range`, `percent_increase`, `iqr_range`,
`volatility_percent` — coincide with the spec's formulas `max - min`,
`price_range / min * 100`, `p75 - p25` and `std / mean * 100` over the
describe statistics of the closing-price column. -/
theorem story_matches_spec_formulas (closes : List ℚ) (h : closes ≠ []) :
    storyOf (describe closes) = specStory (describe closes) := rfl

/-- Witness for C4 at the two-row table with closes 1 and 3. -/
theorem story_matches_spec_formulas_witness :
    ([(1 : ℚ), 3] ≠ []) ∧
      storyOf (describe [1, 3]) = specStory (describe [1, 3]) :=
  ⟨List.cons_ne_nil 1 [3], story_matches_spec_formulas [1, 3] (List.cons_ne_nil 1 [3])⟩

/-- C8: for every non-empty historical table, the derived `price_range`
equals `max - min` of the closing-price statistics and is non-negative. -/
theorem price_range_eq_and_nonneg (closes : List ℚ) (h : closes ≠ []) :
    (storyOf (describe closes)).price_range
        = (describe closes).max - (describe closes).min ∧
    0 ≤ (storyOf (describe closes)).price_range :=
  ⟨rfl, sub_nonneg.mpr (seriesMin_le_seriesMax h)⟩

/-- Witness for C8 at the two-row table with closes 2 and 5. -/
theorem price_range_eq_and_nonneg_witness :
    ([(2 : ℚ), 5] ≠ []) ∧
      ((storyOf (describe [2, 5])).price_range
          = (describe [2, 5]).max - (describe [2, 5]).min ∧
        0 ≤ (storyOf (describe [2, 5])).price_range) :=
  ⟨List.cons_ne_nil 2 [5], price_range_eq_and_nonneg [2, 5] (List.cons_ne_nil 2 [5])⟩

/-- C1: the code does NOT guard the zero-minimum case.  On the table with
closing prices 0 and 10 (minimum 0), `main`'s
`percent_increase = (price_range / stats['min']) * 100` performs the division
by zero and the narrative carries `+inf` (numpy float semantics); no skip or
"undefined" report happens, contradicting the spec's required guard. -/
theorem percent_increase_divzero_unguarded :
    (storyOf (describe [0, 10])).percent_increase = PyVal.posInf := by
  norm_num [storyOf, describe, seriesMin, seriesMax, fdiv, PyVal.mulPos]

/-- C2: whenever the quote-client call raises (network, invalid ticker, rate
limit), `fetch_stock_data` catches it, reports the error on the output
stream, and returns the same `None` result a zero-row response yields;
being a total function, it lets no exception escape. -/
theorem fetch_error_yields_empty (ticker e : String)
    (res : Except String (List Row)) (h : res = Except.error e) :
    (fetch_stock_data ticker res).1 = none ∧
    Event.fetchErrorLine e ∈ (fetch_stock_data ticker res).2 ∧
    (fetch_stock_data ticker res).1 = (fetch_stock_data ticker (Except.ok [])).1 := by
  subst h
  exact ⟨rfl, by simp [fetch_stock_data], rfl⟩

/-- Witness for C2 at a concrete network failure. -/
theorem fetch_error_yields_empty_witness :
    (fetch_stock_data "AAPL" (Except.error "connection reset")).1 = none ∧
    Event.fetchErrorLine "connection reset"
        ∈ (fetch_stock_data "AAPL" (Except.error "connection reset")).2 ∧
    (fetch_stock_data "AAPL" (Except.error "connection reset")).1
        = (fetch_stock_data "AAPL" (Except.ok [])).1 :=
  fetch_error_yields_empty "AAPL" "connection reset" _ rfl

/-- C9: every `fetch_stock_data` result is `None` or a table with at least
one row; a zero-row table is never handed to the caller. -/
theorem fetch_returns_none_or_nonempty (ticker : String)
    (res : Except String (List Row)) :
    (fetch_stock_data ticker res).1 = none ∨
    ∃ rows, (fetch_stock_data ticker res).1 = some rows ∧ rows ≠ [] := by
  cases res with
  | error e => exact Or.inl rfl
  | ok data =>
    by_cases hd : data.isEmpty
    · exact Or.inl (by simp [fetch_stock_data, hd])
    · exact Or.inr ⟨data, by simp [fetch_stock_data, hd],
        by simpa [List.isEmpty_iff] using hd⟩

/-- C10: called on `None` or on a zero-row table, `save_data` only prints the
notice: the filesystem — directories and files alike — is returned
untouched. -/
theorem save_data_empty_is_noop (data : Option (List Row))
    (ticker folder today : String) (fs : FS)
    (h : data = none ∨ data = some []) :
    save_data data ticker folder today fs = (fs, [Event.noDataNotice]) := by
  rcases h with h | h <;> subst h <;> rfl

/-- Witness for C10 at `None`. -/
theorem save_data_empty_is_noop_witness :
    save_data none "JPM" "data" "20251012" ⟨[], []⟩
      = (⟨[], []⟩, [Event.noDataNotice]) :=
  save_data_empty_is_noop none "JPM" "data" "20251012" ⟨[], []⟩ (Or.inl rfl)

/-- C7: the profile reporter prints, for each of company name, sector,
industry, market cap and currency, the present value or the placeholder
(`'N/A'`, resp. `0` rendered with a `$` prefix and thousands separators);
a failing quote-client call is caught and reported as a single warning, and
the reporter is total, so it never aborts the run. -/
theorem stock_info_fields_or_warning (ticker : String)
    (res : Except String Info) :
    (∀ e, res = Except.error e →
      get_stock_info ticker res = [Event.infoWarning e]) ∧
    (∀ i, res = Except.ok i →
      get_stock_info ticker res =
        [Event.infoHeader ticker,
         Event.companyLine (i.longName.getD "N/A"),
         Event.sectorLine (i.sector.getD "N/A"),
         Event.industryLine (i.industry.getD "N/A"),
         Event.marketCapLine ("$" ++ thousandsSep (i.marketCap.getD 0)),
         Event.currencyLine (i.currency.getD "N/A")]) := by
  constructor
  · intro e he; subst he; rfl
  · intro i hi; subst hi; rfl

/-- C5: for every non-empty table, `save_data` ensures the folder exists
(created when missing, directories untouched — and nothing raised — when
already present), writes the CSV serialization of the table to
`{folder}/{ticker}_{today}.csv` (`today` models the run's current local
`YYYYMMDD` calendar date from `datetime.now()`), and then reports the
written file's byte size in KiB, the exact value the `:.2f` format renders
with 2 decimal places. -/
theorem save_data_writes_dated_csv (rows : List Row)
    (ticker folder today : String) (fs : FS) (h : rows ≠ []) :
    folder ∈ (save_data (some rows) ticker folder today fs).1.dirs ∧
    (folder ∈ fs.dirs →
      (save_data (some rows) ticker folder today fs).1.dirs = fs.dirs) ∧
    getFile (save_data (some rows) ticker folder today fs).1
        (folder ++ "/" ++ ticker ++ "_" ++ today ++ ".csv")
      = some (toCsv rows) ∧
    (save_data (some rows) ticker folder today fs).2
      = [Event.savedTo (folder ++ "/" ++ ticker ++ "_" ++ today ++ ".csv"),
         Event.fileSizeKB (kibOf (toCsv rows).length)] := by
  have hne : rows.isEmpty = false := by simpa [List.isEmpty_iff] using h
  refine ⟨?_, ?_, ?_, ?_⟩
  · simpa [save_data, hne, writeFile] using mem_makedirs fs folder
  · intro hf
    simp [save_data, hne, writeFile, makedirs_of_mem hf]
  · simpa [save_data, hne] using
      getFile_writeFile (makedirs fs folder)
        (folder ++ "/" ++ ticker ++ "_" ++ today ++ ".csv") (toCsv rows)
  · simp [save_data, hne, getsize_writeFile]

/-- Witness for C5: saving a one-row table into an empty filesystem. -/
theorem save_data_writes_dated_csv_witness :
    ([(⟨"2025-10-10", 1, 2, 1, 2, 30⟩ : Row)] ≠ []) ∧
    ("data" ∈ (save_data (some [⟨"2025-10-10", 1, 2, 1, 2, 30⟩])
        "JPM" "data" "20251012" ⟨[], []⟩).1.dirs ∧
      ("data" ∈ (⟨[], []⟩ : FS).dirs →
        (save_data (some [⟨"2025-10-10", 1, 2, 1, 2, 30⟩])
            "JPM" "data" "20251012" ⟨[], []⟩).1.dirs = (⟨[], []⟩ : FS).dirs) ∧
      getFile (save_data (some [⟨"2025-10-10", 1, 2, 1, 2, 30⟩])
          "JPM" "data" "20251012" ⟨[], []⟩).1
          ("data" ++ "/" ++ "JPM" ++ "_" ++ "20251012" ++ ".csv")
        = some (toCsv [⟨"2025-10-10", 1, 2, 1, 2, 30⟩]) ∧
      (save_data (some [⟨"2025-10-10", 1, 2, 1, 2, 30⟩])
          "JPM" "data" "20251012" ⟨[], []⟩).2
        = [Event.savedTo ("data" ++ "/" ++ "JPM" ++ "_" ++ "20251012" ++ ".csv"),
           Event.fileSizeKB (kibOf (toCsv [⟨"2025-10-10", 1, 2, 1, 2, 30⟩]).length)]) :=
  ⟨List.cons_ne_nil _ [],
   save_data_writes_dated_csv [⟨"2025-10-10", 1, 2, 1, 2, 30⟩]
     "JPM" "data" "20251012" ⟨[], []⟩ (List.cons_ne_nil _ [])⟩

/-- C6: persisting the same non-empty table twice for the same ticker on the
same calendar date targets the same path: the second call returns the same
filesystem and the same report as the first, and exactly one file sits at the
dated path, holding the one CSV serialization. -/
theorem save_data_same_day_idempotent (rows : List Row)
    (ticker folder today : String) (fs : FS) (h : rows ≠ []) :
    save_data (some rows) ticker folder today
        ((save_data (some rows) ticker folder today fs).1)
      = save_data (some rows) ticker folder today fs ∧
    ((save_data (some rows) ticker folder today fs).1.files.filter
        (fun e => e.1 == folder ++ "/" ++ ticker ++ "_" ++ today ++ ".csv"))
      = [(folder ++ "/" ++ ticker ++ "_" ++ today ++ ".csv", toCsv rows)] := by
  have hne : rows.isEmpty = false := by simpa [List.isEmpty_iff] using h
  have hmem : folder ∈ (writeFile (makedirs fs folder)
      (folder ++ "/" ++ ticker ++ "_" ++ today ++ ".csv") (toCsv rows)).dirs := by
    simpa [writeFile] using mem_makedirs fs folder
  constructor
  · simp only [save_data, hne, Bool.false_eq_true, if_false]
    rw [makedirs_of_mem hmem, writeFile_writeFile]
  · simp [save_data, hne, writeFile, files_makedirs, List.filter_append,
      filter_ne_then_eq]

/-- Witness for C6: double-saving a one-row table into an empty
filesystem. -/
theorem save_data_same_day_idempotent_witness :
    ([(⟨"2025-10-10", 1, 2, 1, 2, 30⟩ : Row)] ≠ []) ∧
    (save_data (some [⟨"2025-10-10", 1, 2, 1, 2, 30⟩]) "JPM" "data" "20251012"
        ((save_data (some [⟨"2025-10-10", 1, 2, 1, 2, 30⟩])
            "JPM" "data" "20251012" ⟨[], []⟩).1)
      = save_data (some [⟨"2025-10-10", 1, 2, 1, 2, 30⟩])
          "JPM" "data" "20251012" ⟨[], []⟩ ∧
    ((save_data (some [⟨"2025-10-10", 1, 2, 1, 2, 30⟩])
        "JPM" "data" "20251012" ⟨[], []⟩).1.files.filter
        (fun e => e.1 == "data" ++ "/" ++ "JPM" ++ "_" ++ "20251012" ++ ".csv"))
      = [("data" ++ "/" ++ "JPM" ++ "_" ++ "20251012" ++ ".csv",
          toCsv [⟨"2025-10-10", 1, 2, 1, 2, 30⟩])]) :=
  ⟨List.cons_ne_nil _ [],
   save_data_same_day_idempotent [⟨"2025-10-10", 1, 2, 1, 2, 30⟩]
     "JPM" "data" "20251012" ⟨[], []⟩ (List.cons_ne_nil _ [])⟩

/-- Witness for C7: a profile with only the name and market cap present, and
a failing profile call. -/
theorem stock_info_fields_or_warning_witness :
    get_stock_info "JPM" (Except.ok ⟨some "JPMorgan Chase", none, none, some 1234567, none⟩) =
      [Event.infoHeader "JPM",
       Event.companyLine ((some "JPMorgan Chase").getD "N/A"),
       Event.sectorLine ((none : Option String).getD "N/A"),
       Event.industryLine ((none : Option String).getD "N/A"),
       Event.marketCapLine ("$" ++ thousandsSep ((some 1234567).getD 0)),
       Event.currencyLine ((none : Option String).getD "N/A")] ∧
    get_stock_info "JPM" (Except.error "timed out") = [Event.infoWarning "timed out"] :=
  ⟨(stock_info_fields_or_warning "JPM" _).2 _ rfl,
   (stock_info_fields_or_warning "JPM" _).1 _ rfl⟩

/-- C3: when fetch yields `None`, the orchestrator leaves the filesystem
untouched, emits no Summarizer or Persister output, and its final printed
marker is the failure indicator; when fetch succeeds, the trace contains the
statistics block, the table is persisted through `save_data` (whose
`savedTo` line appears in the trace), and the final marker is the success
confirmation. -/
theorem main_failure_halts_success_persists
    (profRes : Except String Info) (histRes : Except String (List Row))
    (today : String) (fs : FS) :
    ((fetch_stock_data "JPM" histRes).1 = none →
      (mainRun profRes histRes today fs).1 = fs ∧
      (∀ e ∈ (mainRun profRes histRes today fs).2,
        e.fromSummarizer = false ∧ e.fromPersister = false) ∧
      (mainRun profRes histRes today fs).2.getLast? = some Event.failureMarker) ∧
    (∀ rows, (fetch_stock_data "JPM" histRes).1 = some rows →
      Event.statsBlock (describe (rows.map (fun r => r.close)))
          ∈ (mainRun profRes histRes today fs).2 ∧
      (mainRun profRes histRes today fs).1
          = (save_data (some rows) "JPM" "data" today fs).1 ∧
      Event.savedTo ("data" ++ "/" ++ "JPM" ++ "_" ++ today ++ ".csv")
          ∈ (mainRun profRes histRes today fs).2 ∧
      (mainRun profRes histRes today fs).2.getLast? = some Event.successMarker) := by
  constructor
  · intro hnone
    have hm : mainRun profRes histRes today fs
        = (fs, Event.headerLine :: get_stock_info "JPM" profRes
            ++ (fetch_stock_data "JPM" histRes).2 ++ [Event.failureMarker]) := by
      simp only [mainRun, hnone]
    refine ⟨by rw [hm], ?_, ?_⟩
    · intro e he
      rw [hm] at he
      simp at he
      rcases he with rfl | he | he | rfl
      · exact ⟨rfl, rfl⟩
      · exact get_stock_info_not_pipeline _ _ e he
      · exact fetch_events_not_pipeline _ _ e he
      · exact ⟨rfl, rfl⟩
    · rw [hm]
      have hsh : Event.headerLine :: get_stock_info "JPM" profRes
          ++ (fetch_stock_data "JPM" histRes).2 ++ [Event.failureMarker]
          = (Event.headerLine :: (get_stock_info "JPM" profRes
              ++ (fetch_stock_data "JPM" histRes).2)) ++ [Event.failureMarker] := by
        simp
      rw [hsh, List.getLast?_concat]
  · intro rows hsome
    have hrne : rows ≠ [] := fetch_some_ne_nil hsome
    have hne : rows.isEmpty = false := by simpa [List.isEmpty_iff] using hrne
    have hm : mainRun profRes histRes today fs
        = ((save_data (some rows) "JPM" "data" today fs).1,
           Event.headerLine :: get_stock_info "JPM" profRes
            ++ (fetch_stock_data "JPM" histRes).2
            ++ [Event.previewRows (rows.take 5),
                Event.statsBlock (describe (rows.map (fun r => r.close))),
                Event.storyBlock "JPM"
                  (storyOf (describe (rows.map (fun r => r.close))))]
            ++ (save_data (some rows) "JPM" "data" today fs).2
            ++ [Event.successMarker]) := by
      simp only [mainRun, hsome]
    have hsv : Event.savedTo ("data/JPM_" ++ today ++ ".csv")
        ∈ (save_data (some rows) "JPM" "data" today fs).2 := by
      simp [save_data, hne]
    refine ⟨?_, by rw [hm], ?_, ?_⟩
    · rw [hm]; simp
    · rw [hm]
      simp [hsv]
    · rw [hm]
      have hsh : Event.headerLine :: get_stock_info "JPM" profRes
          ++ (fetch_stock_data "JPM" histRes).2
          ++ [Event.previewRows (rows.take 5),
              Event.statsBlock (describe (rows.map (fun r => r.close))),
              Event.storyBlock "JPM"
                (storyOf (describe (rows.map (fun r => r.close))))]
          ++ (save_data (some rows) "JPM" "data" today fs).2
          ++ [Event.successMarker]
          = (Event.headerLine :: (get_stock_info "JPM" profRes
              ++ (fetch_stock_data "JPM" histRes).2
              ++ [Event.previewRows (rows.take 5),
                  Event.statsBlock (describe (rows.map (fun r => r.close))),
                  Event.storyBlock "JPM"
                    (storyOf (describe (rows.map (fun r => r.close))))]
              ++ (save_data (some rows) "JPM" "data" today fs).2))
              ++ [Event.successMarker] := by
        simp
      rw [hsh, List.getLast?_concat]

/-- Witness for C3: a failing fetch (quote-client error) and a successful
one-row fetch, both with a failing profile call, run on the empty
filesystem. -/
theorem main_failure_halts_success_persists_witness :
    ((mainRun (Except.error "pe") (Except.error "he") "20251012" ⟨[], []⟩).1
        = (⟨[], []⟩ : FS) ∧
      (mainRun (Except.error "pe") (Except.error "he") "20251012"
          ⟨[], []⟩).2.getLast? = some Event.failureMarker) ∧
    (Event.statsBlock (describe ([(⟨"2025-10-10", 1, 2, 1, 2, 30⟩ : Row)].map
          (fun r => r.close)))
        ∈ (mainRun (Except.error "pe")
            (Except.ok [⟨"2025-10-10", 1, 2, 1, 2, 30⟩]) "20251012" ⟨[], []⟩).2 ∧
      (mainRun (Except.error "pe") (Except.ok [⟨"2025-10-10", 1, 2, 1, 2, 30⟩])
          "20251012" ⟨[], []⟩).1
        = (save_data (some [⟨"2025-10-10", 1, 2, 1, 2, 30⟩]) "JPM" "data"
            "20251012" ⟨[], []⟩).1 ∧
      Event.savedTo ("data" ++ "/" ++ "JPM" ++ "_" ++ "20251012" ++ ".csv")
        ∈ (mainRun (Except.error "pe") (Except.ok [⟨"2025-10-10", 1, 2, 1, 2, 30⟩])
            "20251012" ⟨[], []⟩).2 ∧
      (mainRun (Except.error "pe") (Except.ok [⟨"2025-10-10", 1, 2, 1, 2, 30⟩])
          "20251012" ⟨[], []⟩).2.getLast? = some Event.successMarker) :=
  ⟨⟨((main_failure_halts_success_persists (Except.error "pe") (Except.error "he")
        "20251012" ⟨[], []⟩).1 rfl).1,
    ((main_failure_halts_success_persists (Except.error "pe") (Except.error "he")
        "20251012" ⟨[], []⟩).1 rfl).2.2⟩,
   (main_failure_halts_success_persists (Except.error "pe")
      (Except.ok [⟨"2025-10-10", 1, 2, 1, 2, 30⟩]) "20251012" ⟨[], []⟩).2
      [⟨"2025-10-10", 1, 2, 1, 2, 30⟩] rfl⟩
